import Mathlib

/-!
# vboot `2struct.h`: packed on-disk records of the verified-boot data layer

A shallow embedding of `firmware/2lib/include/2struct.h`:

* the flag constants (`VB2_KEY_BLOCK_FLAG_*`, `enum vb2_shared_data_flags`,
  `enum vb2_shared_data_status`, `enum vb2_gbb_flag`);
* the GBB signature constants and version numbers;
* the two packed structures `struct vb2_shared_data` and `struct vb2_gbb_header`,
  each given twice: as a member table (name, element width, element count, in
  declaration order), from which sizes and offsets are computed, and as a Lean
  structure with one field per C member.

The header declares data only. The operations that act on these records (the
little-endian codec, the GBB header validator, the work-buffer arena, the
set/clear/test operations on flag words and the packing of `fw_version`) are
not part of it; each of their
definitions below says so in its doc comment and follows the specification.

Machine integers are natural numbers; a `uintN_t` value is a natural number
below `2 ^ N`, a byte is a natural number below `256`.
-/

namespace Vboot

/-! ## Key block flags (`#define VB2_KEY_BLOCK_FLAG_*`) -/

/-- Developer switch off. -/
def VB2_KEY_BLOCK_FLAG_DEVELOPER_0 : Nat := 0x01
/-- Developer switch on. -/
def VB2_KEY_BLOCK_FLAG_DEVELOPER_1 : Nat := 0x02
/-- Not recovery mode. -/
def VB2_KEY_BLOCK_FLAG_RECOVERY_0 : Nat := 0x04
/-- Recovery mode. -/
def VB2_KEY_BLOCK_FLAG_RECOVERY_1 : Nat := 0x08

/-! ## `enum vb2_shared_data_flags` -/

/-- User has explicitly and physically requested recovery. -/
def VB2_SD_FLAG_MANUAL_RECOVERY : Nat := 1 <<< 0
/-- Developer mode is enabled. -/
def VB2_SD_DEV_MODE_ENABLED : Nat := 1 <<< 1

/-! ## `enum vb2_shared_data_status` -/

/-- Reinitialized NV data due to invalid checksum. -/
def VB2_SD_STATUS_NV_REINIT : Nat := 1 <<< 0
/-- NV data has been initialized. -/
def VB2_SD_STATUS_NV_INIT : Nat := 1 <<< 1
/-- Secure data initialized. -/
def VB2_SD_STATUS_SECDATA_INIT : Nat := 1 <<< 2
/-- Chose a firmware slot. -/
def VB2_SD_STATUS_CHOSE_SLOT : Nat := 1 <<< 3

/-! ## GBB signature and version constants -/

/-- Signature at start of the GBB, `"$GBB"`. -/
def VB2_GBB_SIGNATURE : String := "$GBB"
/-- Number of signature bytes. -/
def VB2_GBB_SIGNATURE_SIZE : Nat := 4
/-- Mask characters, `"****"`. -/
def VB2_GBB_XOR_CHARS : String := "****"
/-- Initializer list of the masked signature. -/
def VB2_GBB_XOR_SIGNATURE : List Nat := [0x0e, 0x6d, 0x68, 0x68]

/-- VB2 GBB struct major version. -/
def VB2_GBB_MAJOR_VER : Nat := 1
/-- VB2 GBB struct minor version (v1.2 added the sha256 digest of the HWID). -/
def VB2_GBB_MINOR_VER : Nat := 2

/-- The GBB is used outside of vboot_reference, so this size is important. -/
def EXPECTED_VB2_GBB_HEADER_SIZE : Nat := 128

/-! ## `enum vb2_gbb_flag` -/

def VB2_GBB_FLAG_DEV_SCREEN_SHORT_DELAY : Nat := 1 <<< 0
def VB2_GBB_FLAG_LOAD_OPTION_ROMS : Nat := 1 <<< 1
def VB2_GBB_FLAG_ENABLE_ALTERNATE_OS : Nat := 1 <<< 2
def VB2_GBB_FLAG_FORCE_DEV_SWITCH_ON : Nat := 1 <<< 3
def VB2_GBB_FLAG_FORCE_DEV_BOOT_USB : Nat := 1 <<< 4
def VB2_GBB_FLAG_DISABLE_FW_ROLLBACK_CHECK : Nat := 1 <<< 5
def VB2_GBB_FLAG_ENTER_TRIGGERS_TONORM : Nat := 1 <<< 6
def VB2_GBB_FLAG_FORCE_DEV_BOOT_LEGACY : Nat := 1 <<< 7
def VB2_GBB_FLAG_FAFT_KEY_OVERIDE : Nat := 1 <<< 8
def VB2_GBB_FLAG_DISABLE_EC_SOFTWARE_SYNC : Nat := 1 <<< 9
def VB2_GBB_FLAG_DEFAULT_DEV_BOOT_LEGACY : Nat := 1 <<< 10
def VB2_GBB_FLAG_DISABLE_PD_SOFTWARE_SYNC : Nat := 1 <<< 11

/-! ## Flag families, in declaration order -/

/-- The four `VB2_KEY_BLOCK_FLAG_*` constants. -/
def vb2_key_block_flags : List Nat :=
  [VB2_KEY_BLOCK_FLAG_DEVELOPER_0, VB2_KEY_BLOCK_FLAG_DEVELOPER_1,
   VB2_KEY_BLOCK_FLAG_RECOVERY_0, VB2_KEY_BLOCK_FLAG_RECOVERY_1]

/-- The enumerators of `enum vb2_shared_data_flags`. -/
def vb2_shared_data_flags : List Nat :=
  [VB2_SD_FLAG_MANUAL_RECOVERY, VB2_SD_DEV_MODE_ENABLED]

/-- The enumerators of `enum vb2_shared_data_status`. -/
def vb2_shared_data_status : List Nat :=
  [VB2_SD_STATUS_NV_REINIT, VB2_SD_STATUS_NV_INIT,
   VB2_SD_STATUS_SECDATA_INIT, VB2_SD_STATUS_CHOSE_SLOT]

/-- The enumerators of `enum vb2_gbb_flag`. -/
def vb2_gbb_flag : List Nat :=
  [VB2_GBB_FLAG_DEV_SCREEN_SHORT_DELAY, VB2_GBB_FLAG_LOAD_OPTION_ROMS,
   VB2_GBB_FLAG_ENABLE_ALTERNATE_OS, VB2_GBB_FLAG_FORCE_DEV_SWITCH_ON,
   VB2_GBB_FLAG_FORCE_DEV_BOOT_USB, VB2_GBB_FLAG_DISABLE_FW_ROLLBACK_CHECK,
   VB2_GBB_FLAG_ENTER_TRIGGERS_TONORM, VB2_GBB_FLAG_FORCE_DEV_BOOT_LEGACY,
   VB2_GBB_FLAG_FAFT_KEY_OVERIDE, VB2_GBB_FLAG_DISABLE_EC_SOFTWARE_SYNC,
   VB2_GBB_FLAG_DEFAULT_DEV_BOOT_LEGACY, VB2_GBB_FLAG_DISABLE_PD_SOFTWARE_SYNC]

/-! ## Packed layouts -/

/-- One member of a packed C structure: its name, the width in bytes of one
element (`uint8_t` 1, `uint16_t` 2, `uint32_t` 4) and the number of elements
(1 for a scalar, the array length for an array). -/
structure Member where
  name : String
  elem_size : Nat
  count : Nat
  deriving DecidableEq, Repr

/-- Bytes occupied by a member. -/
def Member.size (m : Member) : Nat := m.elem_size * m.count

/-- Size of a structure declared `__attribute__((packed))`: the members follow
one another without padding. -/
def packed_sizeof (ms : List Member) : Nat := (ms.map Member.size).sum

/-- Byte offsets of the members of a packed structure, in declaration order,
the first member starting at `base`. -/
def packed_offsets_from (base : Nat) : List Member → List (String × Nat)
  | [] => []
  | m :: ms => (m.name, base) :: packed_offsets_from (base + m.size) ms

/-- Byte offsets of the members of a packed structure. -/
def packed_offsets (ms : List Member) : List (String × Nat) := packed_offsets_from 0 ms

/-- The offset of the member called `name`, as `offsetof` computes it. -/
def packed_offsetof (ms : List Member) (name : String) : Option Nat :=
  ((packed_offsets ms).find? (fun p => p.1 == name)).map Prod.snd

/-- Members of `struct vb2_shared_data`, in declaration order. -/
def vb2_shared_data_members : List Member :=
  [⟨"flags", 4, 1⟩,
   ⟨"gbb_flags", 4, 1⟩,
   ⟨"recovery_reason", 4, 1⟩,
   ⟨"last_fw_slot", 4, 1⟩,
   ⟨"last_fw_result", 4, 1⟩,
   ⟨"fw_slot", 4, 1⟩,
   ⟨"fw_version", 4, 1⟩,
   ⟨"status", 4, 1⟩,
   ⟨"gbb_rootkey_offset", 4, 1⟩,
   ⟨"gbb_rootkey_size", 4, 1⟩,
   ⟨"vblock_preamble_offset", 4, 1⟩,
   ⟨"workbuf_data_key_offset", 4, 1⟩,
   ⟨"workbuf_data_key_size", 4, 1⟩,
   ⟨"workbuf_preamble_offset", 4, 1⟩,
   ⟨"workbuf_preamble_size", 4, 1⟩,
   ⟨"workbuf_hash_offset", 4, 1⟩,
   ⟨"workbuf_hash_size", 4, 1⟩,
   ⟨"hash_tag", 4, 1⟩,
   ⟨"hash_remaining_size", 4, 1⟩]

/-- Members of `struct vb2_gbb_header`, in declaration order. -/
def vb2_gbb_header_members : List Member :=
  [⟨"signature", 1, VB2_GBB_SIGNATURE_SIZE⟩,
   ⟨"major_version", 2, 1⟩,
   ⟨"minor_version", 2, 1⟩,
   ⟨"header_size", 4, 1⟩,
   ⟨"flags", 4, 1⟩,
   ⟨"hwid_offset", 4, 1⟩,
   ⟨"hwid_size", 4, 1⟩,
   ⟨"rootkey_offset", 4, 1⟩,
   ⟨"rootkey_size", 4, 1⟩,
   ⟨"bmpfv_offset", 4, 1⟩,
   ⟨"bmpfv_size", 4, 1⟩,
   ⟨"recovery_key_offset", 4, 1⟩,
   ⟨"recovery_key_size", 4, 1⟩,
   ⟨"hwid_digest", 1, 32⟩,
   ⟨"pad", 1, 48⟩]

/-- The members of `struct vb2_gbb_header` declared under the comment
"Fields present in version 1.1". -/
def vb2_gbb_header_v1_1_names : List String :=
  ["signature", "major_version", "minor_version", "header_size", "flags",
   "hwid_offset", "hwid_size", "rootkey_offset", "rootkey_size",
   "bmpfv_offset", "bmpfv_size", "recovery_key_offset", "recovery_key_size"]

/-- The members of `struct vb2_gbb_header` declared under the comment
"Added in version 1.2". -/
def vb2_gbb_header_v1_2_names : List String := ["hwid_digest"]

/-- Whether member `m` occupies byte `i` of the structure, given its offset. -/
def Member.covers (m : Member) (off i : Nat) : Bool := decide (off ≤ i ∧ i < off + m.size)

/-- Number of members of a packed structure that occupy byte `i`. -/
def packed_owners (ms : List Member) (i : Nat) : Nat :=
  ((ms.zip ((packed_offsets ms).map Prod.snd)).filter (fun p => p.1.covers p.2 i)).length

/-! ## The two records as Lean structures (one field per C member) -/

/-- Data shared between vboot API calls (`struct vb2_shared_data`); every
member is a `uint32_t`. -/
structure vb2_shared_data where
  flags : Nat
  gbb_flags : Nat
  recovery_reason : Nat
  last_fw_slot : Nat
  last_fw_result : Nat
  fw_slot : Nat
  fw_version : Nat
  status : Nat
  gbb_rootkey_offset : Nat
  gbb_rootkey_size : Nat
  vblock_preamble_offset : Nat
  workbuf_data_key_offset : Nat
  workbuf_data_key_size : Nat
  workbuf_preamble_offset : Nat
  workbuf_preamble_size : Nat
  workbuf_hash_offset : Nat
  workbuf_hash_size : Nat
  hash_tag : Nat
  hash_remaining_size : Nat
  deriving DecidableEq, Repr

/-- The GBB header (`struct vb2_gbb_header`): `signature`, `hwid_digest` and
`pad` are byte arrays, the versions are `uint16_t`, the rest `uint32_t`. -/
structure vb2_gbb_header where
  signature : List Nat
  major_version : Nat
  minor_version : Nat
  header_size : Nat
  flags : Nat
  hwid_offset : Nat
  hwid_size : Nat
  rootkey_offset : Nat
  rootkey_size : Nat
  bmpfv_offset : Nat
  bmpfv_size : Nat
  recovery_key_offset : Nat
  recovery_key_size : Nat
  hwid_digest : List Nat
  pad : List Nat
  deriving DecidableEq, Repr

/-- A byte array of the declared length: `n` values below 256. -/
def is_bytes (n : Nat) (bs : List Nat) : Prop := bs.length = n ∧ ∀ x ∈ bs, x < 256

instance (n : Nat) (bs : List Nat) : Decidable (is_bytes n bs) := by
  unfold is_bytes; infer_instance

/-- Every member of the record holds a value of its C type (`uint32_t`). -/
def vb2_shared_data.wf (s : vb2_shared_data) : Prop :=
  s.flags < 2 ^ 32 ∧ s.gbb_flags < 2 ^ 32 ∧ s.recovery_reason < 2 ^ 32 ∧
  s.last_fw_slot < 2 ^ 32 ∧ s.last_fw_result < 2 ^ 32 ∧ s.fw_slot < 2 ^ 32 ∧
  s.fw_version < 2 ^ 32 ∧ s.status < 2 ^ 32 ∧ s.gbb_rootkey_offset < 2 ^ 32 ∧
  s.gbb_rootkey_size < 2 ^ 32 ∧ s.vblock_preamble_offset < 2 ^ 32 ∧
  s.workbuf_data_key_offset < 2 ^ 32 ∧ s.workbuf_data_key_size < 2 ^ 32 ∧
  s.workbuf_preamble_offset < 2 ^ 32 ∧ s.workbuf_preamble_size < 2 ^ 32 ∧
  s.workbuf_hash_offset < 2 ^ 32 ∧ s.workbuf_hash_size < 2 ^ 32 ∧
  s.hash_tag < 2 ^ 32 ∧ s.hash_remaining_size < 2 ^ 32

instance (s : vb2_shared_data) : Decidable s.wf := by
  unfold vb2_shared_data.wf; infer_instance

/-- Every member of the header holds a value of its C type. -/
def vb2_gbb_header.wf (h : vb2_gbb_header) : Prop :=
  is_bytes VB2_GBB_SIGNATURE_SIZE h.signature ∧
  h.major_version < 2 ^ 16 ∧ h.minor_version < 2 ^ 16 ∧
  h.header_size < 2 ^ 32 ∧ h.flags < 2 ^ 32 ∧
  h.hwid_offset < 2 ^ 32 ∧ h.hwid_size < 2 ^ 32 ∧
  h.rootkey_offset < 2 ^ 32 ∧ h.rootkey_size < 2 ^ 32 ∧
  h.bmpfv_offset < 2 ^ 32 ∧ h.bmpfv_size < 2 ^ 32 ∧
  h.recovery_key_offset < 2 ^ 32 ∧ h.recovery_key_size < 2 ^ 32 ∧
  is_bytes 32 h.hwid_digest ∧ is_bytes 48 h.pad

instance (h : vb2_gbb_header) : Decidable h.wf := by
  unfold vb2_gbb_header.wf; infer_instance

/-! ## The signature mask -/

/-- The bytes of a C string literal, without the terminating NUL. -/
def str_bytes (s : String) : List Nat := s.toList.map Char.toNat

/-- Bytewise exclusive or of two byte strings. -/
def xor_bytes (a b : List Nat) : List Nat := List.zipWith (fun x y => x ^^^ y) a b

/-! ## `fw_version`: "top 16 bits = key, lower 16 bits = firmware" -/

/-- Modelled from the spec: the header has no code that unpacks `fw_version`,
only the member and its comment "top 16 bits = key, lower 16 bits = firmware";
section 3 packs the key version in the high half. The key version held in the
top 16 bits of `vb2_shared_data.fw_version`. -/
def fw_version_key (v : Nat) : Nat := v >>> 16

/-- Modelled from the spec: the header has no code that unpacks `fw_version`,
only the member and its comment "top 16 bits = key, lower 16 bits = firmware".
The firmware version held in the lower 16 bits of
`vb2_shared_data.fw_version`. -/
def fw_version_firmware (v : Nat) : Nat := v &&& 0xFFFF

/-- Modelled from the spec: the header has no code that packs `fw_version`,
only the member and its comment "top 16 bits = key, lower 16 bits = firmware";
section 3 packs the two 16-bit versions as one 32-bit field. The `uint32_t`
whose top 16 bits are `key` and whose lower 16 bits are `fw`. -/
def fw_version_pack (key fw : Nat) : Nat := ((key <<< 16) ||| fw) % 2 ^ 32

/-! ## Error codes -/

/-- Modelled from the spec: the error taxonomy of section 7; the header
declares no error codes. -/
inductive Vb2Error where
  | FormatError
  | CapacityError
  | OutOfMemory
  | AlreadyAllocated
  | AlreadyInProgress
  | Underflow
  | IncompleteHash
  | BadSignature
  | UnsupportedVersion
  | SizeMismatch
  | RegionOutOfBounds (region : String)
  deriving DecidableEq, Repr

deriving instance DecidableEq for Except

/-! ## Packed record codec -/

/-- Modelled from the spec: the header declares no serializer; section 6 fixes
the byte order as little-endian. The `n` little-endian bytes of `v`. -/
def put_le : Nat → Nat → List Nat
  | 0, _ => []
  | n + 1, v => v % 256 :: put_le n (v / 256)

/-- Modelled from the spec: the header declares no deserializer; section 6
fixes the byte order as little-endian. The value of a little-endian byte
string. -/
def get_le : List Nat → Nat
  | [] => 0
  | b :: bs => b + 256 * get_le bs

/-- The `n` bytes of `b` starting at offset `off`. -/
def slice (b : List Nat) (off n : Nat) : List Nat := (b.drop off).take n

/-- Modelled from the spec: field-by-field encoding of `struct vb2_shared_data`
(section 4.1), which the header does not define: the members in declaration
order, each as four little-endian bytes, nothing in between. -/
def encode_shared_data (s : vb2_shared_data) : List Nat :=
  put_le 4 s.flags ++ put_le 4 s.gbb_flags ++ put_le 4 s.recovery_reason ++
  put_le 4 s.last_fw_slot ++ put_le 4 s.last_fw_result ++ put_le 4 s.fw_slot ++
  put_le 4 s.fw_version ++ put_le 4 s.status ++ put_le 4 s.gbb_rootkey_offset ++
  put_le 4 s.gbb_rootkey_size ++ put_le 4 s.vblock_preamble_offset ++
  put_le 4 s.workbuf_data_key_offset ++ put_le 4 s.workbuf_data_key_size ++
  put_le 4 s.workbuf_preamble_offset ++ put_le 4 s.workbuf_preamble_size ++
  put_le 4 s.workbuf_hash_offset ++ put_le 4 s.workbuf_hash_size ++
  put_le 4 s.hash_tag ++ put_le 4 s.hash_remaining_size

/-- Modelled from the spec: decoding of `struct vb2_shared_data` (section 4.1),
which the header does not define: `FormatError` when the input is shorter than
the record, otherwise each member read at its packed offset. -/
def decode_shared_data (b : List Nat) : Except Vb2Error vb2_shared_data :=
  if b.length < packed_sizeof vb2_shared_data_members then .error .FormatError
  else .ok
    { flags := get_le (slice b 0 4)
      gbb_flags := get_le (slice b 4 4)
      recovery_reason := get_le (slice b 8 4)
      last_fw_slot := get_le (slice b 12 4)
      last_fw_result := get_le (slice b 16 4)
      fw_slot := get_le (slice b 20 4)
      fw_version := get_le (slice b 24 4)
      status := get_le (slice b 28 4)
      gbb_rootkey_offset := get_le (slice b 32 4)
      gbb_rootkey_size := get_le (slice b 36 4)
      vblock_preamble_offset := get_le (slice b 40 4)
      workbuf_data_key_offset := get_le (slice b 44 4)
      workbuf_data_key_size := get_le (slice b 48 4)
      workbuf_preamble_offset := get_le (slice b 52 4)
      workbuf_preamble_size := get_le (slice b 56 4)
      workbuf_hash_offset := get_le (slice b 60 4)
      workbuf_hash_size := get_le (slice b 64 4)
      hash_tag := get_le (slice b 68 4)
      hash_remaining_size := get_le (slice b 72 4) }

/-- Modelled from the spec: field-by-field encoding of `struct vb2_gbb_header`
(section 4.1), which the header does not define: the members in declaration
order, integers little-endian, byte arrays verbatim, nothing in between. -/
def encode_gbb_header (h : vb2_gbb_header) : List Nat :=
  h.signature ++ put_le 2 h.major_version ++ put_le 2 h.minor_version ++
  put_le 4 h.header_size ++ put_le 4 h.flags ++
  put_le 4 h.hwid_offset ++ put_le 4 h.hwid_size ++
  put_le 4 h.rootkey_offset ++ put_le 4 h.rootkey_size ++
  put_le 4 h.bmpfv_offset ++ put_le 4 h.bmpfv_size ++
  put_le 4 h.recovery_key_offset ++ put_le 4 h.recovery_key_size ++
  h.hwid_digest ++ h.pad

/-- Modelled from the spec: decoding of `struct vb2_gbb_header` (section 4.1),
which the header does not define: `FormatError` when the input is shorter than
the record, otherwise each member read at its packed offset. -/
def decode_gbb_header (b : List Nat) : Except Vb2Error vb2_gbb_header :=
  if b.length < packed_sizeof vb2_gbb_header_members then .error .FormatError
  else .ok
    { signature := slice b 0 4
      major_version := get_le (slice b 4 2)
      minor_version := get_le (slice b 6 2)
      header_size := get_le (slice b 8 4)
      flags := get_le (slice b 12 4)
      hwid_offset := get_le (slice b 16 4)
      hwid_size := get_le (slice b 20 4)
      rootkey_offset := get_le (slice b 24 4)
      rootkey_size := get_le (slice b 28 4)
      bmpfv_offset := get_le (slice b 32 4)
      bmpfv_size := get_le (slice b 36 4)
      recovery_key_offset := get_le (slice b 40 4)
      recovery_key_size := get_le (slice b 44 4)
      hwid_digest := slice b 48 32
      pad := slice b 80 48 }

/-! ## GBB header validator -/

/-- Modelled from the spec: the signature check of section 4.4 (the validator
is not in the header): the stored bytes are XOR-masked with the constant mask
and compared with the magic; a mismatch is `BadSignature`. -/
def gbb_check_signature (h : vb2_gbb_header) : Except Vb2Error Unit :=
  if xor_bytes h.signature (str_bytes VB2_GBB_XOR_CHARS) = str_bytes VB2_GBB_SIGNATURE
  then .ok () else .error .BadSignature

/-- Modelled from the spec: the version check of section 4.4 (the validator is
not in the header): `major_version` must equal the single supported major
version, else `UnsupportedVersion`; any minor version is accepted. -/
def gbb_check_version (h : vb2_gbb_header) : Except Vb2Error Unit :=
  if h.major_version = VB2_GBB_MAJOR_VER then .ok () else .error .UnsupportedVersion

/-- Modelled from the spec: the size check of section 4.4 (the validator is not
in the header): `header_size` must equal the expected fixed size, else
`SizeMismatch`. -/
def gbb_check_size (h : vb2_gbb_header) : Except Vb2Error Unit :=
  if h.header_size = EXPECTED_VB2_GBB_HEADER_SIZE then .ok () else .error .SizeMismatch

/-- Modelled from the spec: the check of one region of section 4.4 (the
validator is not in the header): `offset + size` must not overflow 32 bits and
must not exceed the declared length of the GBB component. -/
def gbb_check_region (region : String) (offset size gbb_len : Nat) : Except Vb2Error Unit :=
  if offset + size < 2 ^ 32 ∧ offset + size ≤ gbb_len then .ok ()
  else .error (.RegionOutOfBounds region)

/-- Modelled from the spec: `validate` of section 4.4 on a decoded header (the
validator is not in the header): signature, version, size, then the four
regions. -/
def gbb_validate_header (h : vb2_gbb_header) (gbb_len : Nat) : Except Vb2Error vb2_gbb_header := do
  gbb_check_signature h
  gbb_check_version h
  gbb_check_size h
  gbb_check_region "hwid" h.hwid_offset h.hwid_size gbb_len
  gbb_check_region "rootkey" h.rootkey_offset h.rootkey_size gbb_len
  gbb_check_region "bmpfv" h.bmpfv_offset h.bmpfv_size gbb_len
  gbb_check_region "recovery_key" h.recovery_key_offset h.recovery_key_size gbb_len
  pure h

/-- Modelled from the spec: `validate(bytes)` of section 4.4 (the validator is
not in the header): decode, then validate the decoded header. -/
def gbb_validate (b : List Nat) (gbb_len : Nat) : Except Vb2Error vb2_gbb_header :=
  decode_gbb_header b >>= fun h => gbb_validate_header h gbb_len

/-! ## Work-buffer arena -/

/-- Modelled from the spec: the "set" operation of the design notes on a
32-bit flag word (the header declares only the constants): `w | f`. -/
def flag_set (w f : Nat) : Nat := w ||| f

/-- Modelled from the spec: the "clear" operation of the design notes on a
32-bit flag word (the header declares only the constants): `w & ~f`. -/
def flag_clear (w f : Nat) : Nat := w &&& (0xFFFFFFFF ^^^ f)

/-- Modelled from the spec: the "test" operation of the design notes on a
32-bit flag word (the header declares only the constants): `(w & f) != 0`. -/
def flag_test (w f : Nat) : Bool := (w &&& f) != 0

/-- A single-bit value of a 32-bit word: a power of two below `2 ^ 32`. -/
def single_bit (c : Nat) : Prop := ∃ k, k < 32 ∧ c = 2 ^ k

/-! ## Concrete records used to instantiate the theorems -/

/-- A shared-data record whose members alternate between the boundary values
`0` and `2 ^ 32 - 1`. -/
def boundary_shared_data : vb2_shared_data :=
  { flags := 0xFFFFFFFF, gbb_flags := 0, recovery_reason := 0xFFFFFFFF, last_fw_slot := 0,
    last_fw_result := 0xFFFFFFFF, fw_slot := 0, fw_version := 0xFFFFFFFF, status := 0,
    gbb_rootkey_offset := 0xFFFFFFFF, gbb_rootkey_size := 0,
    vblock_preamble_offset := 0xFFFFFFFF, workbuf_data_key_offset := 0,
    workbuf_data_key_size := 0xFFFFFFFF, workbuf_preamble_offset := 0,
    workbuf_preamble_size := 0xFFFFFFFF, workbuf_hash_offset := 0,
    workbuf_hash_size := 0xFFFFFFFF, hash_tag := 0, hash_remaining_size := 0xFFFFFFFF }

/-- A GBB header whose members take the boundary values of their types. -/
def boundary_gbb_header : vb2_gbb_header :=
  { signature := [0, 0xFF, 0, 0xFF], major_version := 0xFFFF, minor_version := 0,
    header_size := 0xFFFFFFFF, flags := 0, hwid_offset := 0xFFFFFFFF, hwid_size := 0,
    rootkey_offset := 0xFFFFFFFF, rootkey_size := 0, bmpfv_offset := 0xFFFFFFFF,
    bmpfv_size := 0, recovery_key_offset := 0xFFFFFFFF, recovery_key_size := 0,
    hwid_digest := List.replicate 32 0xFF, pad := List.replicate 48 0xFF }

/-- The header of the spec's scenario: masked signature, version 1.2, header
size 128, the four regions inside a 4096-byte component. -/
def scenario_gbb_header : vb2_gbb_header :=
  { signature := VB2_GBB_XOR_SIGNATURE, major_version := 1, minor_version := 2,
    header_size := 128, flags := 0, hwid_offset := 128, hwid_size := 256,
    rootkey_offset := 384, rootkey_size := 1024, bmpfv_offset := 1408,
    bmpfv_size := 2048, recovery_key_offset := 3456, recovery_key_size := 640,
    hwid_digest := List.replicate 32 0, pad := List.replicate 48 0 }

/-! ## Sizes and offsets -/

/-- C1: the packed size of `struct vb2_gbb_header` is the sum of its member
widths 4, 2, 2, ten times 4, 32 and 48, which is exactly 128 bytes and equals
`EXPECTED_VB2_GBB_HEADER_SIZE`. -/
theorem vb2_gbb_header_packed_size :
    vb2_gbb_header_members.map Member.size
        = [4, 2, 2, 4, 4, 4, 4, 4, 4, 4, 4, 4, 4, 32, 48]
      ∧ packed_sizeof vb2_gbb_header_members = 128
      ∧ packed_sizeof vb2_gbb_header_members = EXPECTED_VB2_GBB_HEADER_SIZE := by
  refine ⟨by decide, by decide, by decide⟩

/-- C2: bytewise, the stored constant `VB2_GBB_XOR_SIGNATURE` is the magic
`"$GBB"` XOR the mask `"****"`; masking the stored constant gives the magic,
masking the magic gives the stored constant. -/
theorem vb2_gbb_xor_signature_mask :
    (∀ i : Fin 4,
        VB2_GBB_XOR_SIGNATURE.getD i.val 0
          = (str_bytes VB2_GBB_SIGNATURE).getD i.val 0
              ^^^ (str_bytes VB2_GBB_XOR_CHARS).getD i.val 0)
      ∧ str_bytes VB2_GBB_SIGNATURE = [0x24, 0x47, 0x42, 0x42]
      ∧ str_bytes VB2_GBB_XOR_CHARS = [0x2a, 0x2a, 0x2a, 0x2a]
      ∧ (str_bytes VB2_GBB_SIGNATURE).length = VB2_GBB_SIGNATURE_SIZE
      ∧ xor_bytes VB2_GBB_XOR_SIGNATURE (str_bytes VB2_GBB_XOR_CHARS)
          = str_bytes VB2_GBB_SIGNATURE
      ∧ xor_bytes (str_bytes VB2_GBB_SIGNATURE) (str_bytes VB2_GBB_XOR_CHARS)
          = VB2_GBB_XOR_SIGNATURE := by
  decide

/-- C3: in the packed layout of `struct vb2_gbb_header` the members lie at
offsets signature 0, major_version 4, minor_version 6, header_size 8, flags 12,
hwid 16/20, rootkey 24/28, bmpfv 32/36, recovery_key 40/44, hwid_digest 48,
pad 80; they are contiguous (each member ends where the next begins, the last
ends at 128) and non-overlapping (every byte below 128 lies in exactly one
member); the version 1.1 members are the first 13 members and fill exactly
the first 48 bytes, where hwid_digest begins, and each of them has the same
offset in the layout without hwid_digest. -/
theorem vb2_gbb_header_offsets :
    packed_offsets vb2_gbb_header_members
        = [("signature", 0), ("major_version", 4), ("minor_version", 6),
           ("header_size", 8), ("flags", 12), ("hwid_offset", 16), ("hwid_size", 20),
           ("rootkey_offset", 24), ("rootkey_size", 28), ("bmpfv_offset", 32),
           ("bmpfv_size", 36), ("recovery_key_offset", 40), ("recovery_key_size", 44),
           ("hwid_digest", 48), ("pad", 80)]
      ∧ (∀ k : Fin 14,
          ((packed_offsets vb2_gbb_header_members).map Prod.snd).getD k.val 0
              + ((vb2_gbb_header_members.map Member.size).getD k.val 0)
            = ((packed_offsets vb2_gbb_header_members).map Prod.snd).getD (k.val + 1) 0)
      ∧ ((packed_offsets vb2_gbb_header_members).map Prod.snd).getD 14 0
            + ((vb2_gbb_header_members.map Member.size).getD 14 0) = 128
      ∧ (∀ i : Fin 128, packed_owners vb2_gbb_header_members i.val = 1)
      ∧ vb2_gbb_header_v1_2_names.map (packed_offsetof vb2_gbb_header_members) = [some 48]
      ∧ vb2_gbb_header_members.filter (fun m => m.name ∈ vb2_gbb_header_v1_1_names)
          = vb2_gbb_header_members.take 13
      ∧ packed_sizeof (vb2_gbb_header_members.take 13) = 48
      ∧ vb2_gbb_header_v1_1_names.map (packed_offsetof vb2_gbb_header_members)
          = [some 0, some 4, some 6, some 8, some 12, some 16, some 20, some 24, some 28,
             some 32, some 36, some 40, some 44]
      ∧ vb2_gbb_header_v1_1_names.map
            (packed_offsetof
              (vb2_gbb_header_members.filter (fun m => m.name ∉ vb2_gbb_header_v1_2_names)))
          = vb2_gbb_header_v1_1_names.map (packed_offsetof vb2_gbb_header_members) := by
  refine ⟨by decide, by decide, by decide, by decide, by decide, by decide, by decide,
    by decide, by decide⟩

/-- C4: `struct vb2_shared_data` is a packed sequence of exactly 19 `uint32_t`
members in the order flags, gbb_flags, ..., hash_remaining_size; member `k`
(from 0) lies at byte offset `4 * k`, every byte below 76 lies in exactly one
member, and the size of the record is 76 bytes. -/
theorem vb2_shared_data_layout :
    vb2_shared_data_members.length = 19
      ∧ vb2_shared_data_members.map Member.elem_size = List.replicate 19 4
      ∧ vb2_shared_data_members.map Member.count = List.replicate 19 1
      ∧ vb2_shared_data_members.map Member.name
          = ["flags", "gbb_flags", "recovery_reason", "last_fw_slot", "last_fw_result",
             "fw_slot", "fw_version", "status", "gbb_rootkey_offset", "gbb_rootkey_size",
             "vblock_preamble_offset", "workbuf_data_key_offset", "workbuf_data_key_size",
             "workbuf_preamble_offset", "workbuf_preamble_size", "workbuf_hash_offset",
             "workbuf_hash_size", "hash_tag", "hash_remaining_size"]
      ∧ (∀ k : Fin 19,
          (packed_offsets vb2_shared_data_members).get? k.val
            = some ((vb2_shared_data_members.map Member.name).getD k.val "", 4 * k.val))
      ∧ (∀ i : Fin 76, packed_owners vb2_shared_data_members i.val = 1)
      ∧ packed_sizeof vb2_shared_data_members = 76 := by
  refine ⟨by decide, by decide, by decide, by decide, by decide, by decide, by decide⟩

/-! ## The packed firmware version -/

theorem fw_version_pack_eq (k f : Nat) (hk : k < 2 ^ 16) (hf : f < 2 ^ 16) :
    fw_version_pack k f = k * 2 ^ 16 + f := by
  unfold fw_version_pack
  rw [Nat.shiftLeft_eq, Nat.mul_comm k, ← Nat.mul_add_lt_is_or hf k]
  apply Nat.mod_eq_of_lt
  omega

theorem fw_version_key_pack (k f : Nat) (hk : k < 2 ^ 16) (hf : f < 2 ^ 16) :
    fw_version_key (fw_version_pack k f) = k := by
  rw [fw_version_pack_eq k f hk hf]
  unfold fw_version_key
  rw [Nat.shiftRight_eq_div_pow]
  omega

theorem fw_version_firmware_eq_mod (v : Nat) : fw_version_firmware v = v % 2 ^ 16 := by
  unfold fw_version_firmware
  exact Nat.and_pow_two_sub_one_eq_mod v 16

theorem fw_version_firmware_pack (k f : Nat) (hk : k < 2 ^ 16) (hf : f < 2 ^ 16) :
    fw_version_firmware (fw_version_pack k f) = f := by
  rw [fw_version_pack_eq k f hk hf, fw_version_firmware_eq_mod]
  omega

/-- C7: for key and firmware versions below `2 ^ 16` the packed `fw_version` is
`k * 2 ^ 16 + f`, a 32-bit value whose top 16 bits (`>> 16`) are the key
version and whose lower 16 bits (`& 0xFFFF`) are the firmware version; packing
is injective, and the unsigned order of packed values is the lexicographic
order of the pairs (key version, firmware version); every 32-bit value `v` is
the packing of its two halves. -/
theorem fw_version_packing (k f k2 f2 v : Nat)
    (hk : k < 2 ^ 16) (hf : f < 2 ^ 16) (hk2 : k2 < 2 ^ 16) (hf2 : f2 < 2 ^ 16)
    (hv : v < 2 ^ 32) :
    fw_version_pack k f = k * 2 ^ 16 + f
      ∧ fw_version_pack k f < 2 ^ 32
      ∧ fw_version_key (fw_version_pack k f) = k
      ∧ fw_version_firmware (fw_version_pack k f) = f
      ∧ (fw_version_pack k f = fw_version_pack k2 f2 ↔ k = k2 ∧ f = f2)
      ∧ (fw_version_pack k f < fw_version_pack k2 f2 ↔ k < k2 ∨ (k = k2 ∧ f < f2))
      ∧ fw_version_key v < 2 ^ 16 ∧ fw_version_firmware v < 2 ^ 16
      ∧ fw_version_pack (fw_version_key v) (fw_version_firmware v) = v := by
  have hkv : fw_version_key v = v / 2 ^ 16 := Nat.shiftRight_eq_div_pow v 16
  have hfv : fw_version_firmware v = v % 2 ^ 16 := fw_version_firmware_eq_mod v
  have hkv2 : fw_version_key v < 2 ^ 16 := by rw [hkv]; omega
  have hfv2 : fw_version_firmware v < 2 ^ 16 := by rw [hfv]; omega
  refine ⟨fw_version_pack_eq k f hk hf, ?_, fw_version_key_pack k f hk hf,
    fw_version_firmware_pack k f hk hf, ?_, ?_, hkv2, hfv2, ?_⟩
  · rw [fw_version_pack_eq k f hk hf]; omega
  · rw [fw_version_pack_eq k f hk hf, fw_version_pack_eq k2 f2 hk2 hf2]; omega
  · rw [fw_version_pack_eq k f hk hf, fw_version_pack_eq k2 f2 hk2 hf2]; omega
  · rw [fw_version_pack_eq _ _ hkv2 hfv2, hkv, hfv]; omega

/-- Witness of C7 at the boundary versions `(0xFFFF, 0)` and `(0xFFFE, 0xFFFF)`
and the value `0xFFFFFFFF`. -/
theorem fw_version_packing_witness :
    fw_version_pack 0xFFFF 0 = 0xFFFF * 2 ^ 16 + 0
      ∧ fw_version_pack 0xFFFF 0 < 2 ^ 32
      ∧ fw_version_key (fw_version_pack 0xFFFF 0) = 0xFFFF
      ∧ fw_version_firmware (fw_version_pack 0xFFFF 0) = 0
      ∧ (fw_version_pack 0xFFFF 0 = fw_version_pack 0xFFFE 0xFFFF
          ↔ 0xFFFF = 0xFFFE ∧ 0 = 0xFFFF)
      ∧ (fw_version_pack 0xFFFF 0 < fw_version_pack 0xFFFE 0xFFFF
          ↔ 0xFFFF < 0xFFFE ∨ (0xFFFF = 0xFFFE ∧ 0 < 0xFFFF))
      ∧ fw_version_key 0xFFFFFFFF < 2 ^ 16 ∧ fw_version_firmware 0xFFFFFFFF < 2 ^ 16
      ∧ fw_version_pack (fw_version_key 0xFFFFFFFF) (fw_version_firmware 0xFFFFFFFF)
          = 0xFFFFFFFF :=
  fw_version_packing 0xFFFF 0 0xFFFE 0xFFFF 0xFFFFFFFF
    (by decide) (by decide) (by decide) (by decide) (by decide)

/-! ## Flag families -/

theorem flag_set_other_bit (w i j : Nat) (hij : i ≠ j) :
    flag_test (flag_set w (2 ^ i)) (2 ^ j) = flag_test w (2 ^ j) := by
  have h : (w ||| 2 ^ i) &&& 2 ^ j = w &&& 2 ^ j := by
    apply Nat.eq_of_testBit_eq
    intro n
    simp only [Nat.testBit_and, Nat.testBit_or, Nat.testBit_two_pow]
    by_cases hjn : j = n
    · have hin : ¬ i = n := fun h => hij (h.trans hjn.symm)
      simp [hin]
    · simp [hjn]
  simp only [flag_test, flag_set, h]

theorem flag_clear_other_bit (w i j : Nat) (hij : i ≠ j) (hj : j < 32) :
    flag_test (flag_clear w (2 ^ i)) (2 ^ j) = flag_test w (2 ^ j) := by
  have h : (w &&& (0xFFFFFFFF ^^^ 2 ^ i)) &&& 2 ^ j = w &&& 2 ^ j := by
    apply Nat.eq_of_testBit_eq
    intro n
    have hm : (0xFFFFFFFF : Nat) = 2 ^ 32 - 1 := by norm_num
    simp only [Nat.testBit_and, Nat.testBit_xor, Nat.testBit_two_pow, hm,
      Nat.testBit_two_pow_sub_one]
    by_cases hjn : j = n
    · have hin : ¬ i = n := fun h => hij (h.trans hjn.symm)
      have hn : n < 32 := hjn ▸ hj
      simp [hin, hn]
    · simp [hjn]
  simp only [flag_test, flag_clear, h]

theorem flag_independent (A B : Nat) (hA : single_bit A) (hB : single_bit B) (hAB : A ≠ B)
    (w : Nat) :
    flag_test (flag_set w A) B = flag_test w B
      ∧ flag_test (flag_clear w A) B = flag_test w B := by
  obtain ⟨i, _, rfl⟩ := hA
  obtain ⟨j, hj, rfl⟩ := hB
  have hij : i ≠ j := fun h => hAB (by rw [h])
  exact ⟨flag_set_other_bit w i j hij, flag_clear_other_bit w i j hij hj⟩

theorem flag_families_single_bit :
    ∀ fam ∈ [vb2_shared_data_flags, vb2_shared_data_status, vb2_gbb_flag, vb2_key_block_flags],
      ∀ c ∈ fam, ∃ k, k < 32 ∧ c = 2 ^ k := by
  decide

/-- C9: in each flag family every named constant is a single-bit value and
the constants are pairwise distinct, so for any word `w` and two different
flags `A`, `B` of one family, setting or clearing `A` leaves the test of `B`
unchanged (while the test of `A` itself becomes true, respectively false); the
four status flags are bits 0..3 and the twelve GBB flags are exactly bits
0..11, their bitwise OR being `0xFFF`. -/
theorem flag_families_independent :
    (∀ fam ∈ [vb2_shared_data_flags, vb2_shared_data_status, vb2_gbb_flag, vb2_key_block_flags],
        (∀ c ∈ fam, single_bit c)
          ∧ fam.Nodup
          ∧ (∀ A ∈ fam, ∀ B ∈ fam, A ≠ B → ∀ w,
              flag_test (flag_set w A) B = flag_test w B
                ∧ flag_test (flag_clear w A) B = flag_test w B)
          ∧ (∀ A ∈ fam, ∀ w,
              flag_test (flag_set w A) A = true ∧ flag_test (flag_clear w A) A = false))
      ∧ vb2_shared_data_status = [2 ^ 0, 2 ^ 1, 2 ^ 2, 2 ^ 3]
      ∧ vb2_gbb_flag = (List.range 12).map (fun k => 2 ^ k)
      ∧ vb2_gbb_flag.foldl (fun x y => x ||| y) 0 = 0xFFF := by
  refine ⟨?_, by decide, by decide, by decide⟩
  intro fam hfam
  have hbit : ∀ c ∈ fam, single_bit c := flag_families_single_bit fam hfam
  have hnodup : ∀ l ∈ [vb2_shared_data_flags, vb2_shared_data_status, vb2_gbb_flag,
      vb2_key_block_flags], l.Nodup := by decide
  refine ⟨hbit, hnodup fam hfam, ?_, ?_⟩
  · intro A hA B hB hAB w
    exact flag_independent A B (hbit A hA) (hbit B hB) hAB w
  · intro A hA w
    obtain ⟨i, hi, rfl⟩ := hbit A hA
    constructor
    · have h : (w ||| 2 ^ i) &&& 2 ^ i ≠ 0 := by
        intro h0
        have := congrArg (fun x => Nat.testBit x i) h0
        simp [Nat.testBit_two_pow] at this
      simp [flag_test, flag_set, h]
    · have h : (w &&& (0xFFFFFFFF ^^^ 2 ^ i)) &&& 2 ^ i = 0 := by
        apply Nat.eq_of_testBit_eq
        intro n
        have hm : (0xFFFFFFFF : Nat) = 2 ^ 32 - 1 := by norm_num
        simp only [Nat.testBit_and, Nat.testBit_xor, Nat.testBit_two_pow, hm,
          Nat.testBit_two_pow_sub_one, Nat.zero_testBit]
        by_cases hin : i = n
        · have hn : n < 32 := hin ▸ hi
          simp [hin, hn]
        · simp [hin]
      simp [flag_test, flag_clear, h]

/-- Witness of C9: setting or clearing `VB2_GBB_FLAG_LOAD_OPTION_ROMS` in the
word `0xFFFFFFFF` leaves the test of `VB2_GBB_FLAG_DISABLE_PD_SOFTWARE_SYNC`
unchanged. -/
theorem flag_families_independent_witness :
    flag_test (flag_set 0xFFFFFFFF VB2_GBB_FLAG_LOAD_OPTION_ROMS)
          VB2_GBB_FLAG_DISABLE_PD_SOFTWARE_SYNC
        = flag_test 0xFFFFFFFF VB2_GBB_FLAG_DISABLE_PD_SOFTWARE_SYNC
      ∧ flag_test (flag_clear 0xFFFFFFFF VB2_GBB_FLAG_LOAD_OPTION_ROMS)
          VB2_GBB_FLAG_DISABLE_PD_SOFTWARE_SYNC
        = flag_test 0xFFFFFFFF VB2_GBB_FLAG_DISABLE_PD_SOFTWARE_SYNC :=
  (flag_families_independent.1 vb2_gbb_flag (by decide)).2.2.1
    VB2_GBB_FLAG_LOAD_OPTION_ROMS (by decide)
    VB2_GBB_FLAG_DISABLE_PD_SOFTWARE_SYNC (by decide) (by decide) 0xFFFFFFFF

/-! ## Work-buffer arena -/

theorem put_le_length (n v : Nat) : (put_le n v).length = n := by
  induction n generalizing v with
  | zero => rfl
  | succ n ih => simp [put_le, ih]

theorem put_le_lt (n v : Nat) : ∀ x ∈ put_le n v, x < 256 := by
  induction n generalizing v with
  | zero => intro x hx; simp [put_le] at hx
  | succ n ih =>
    intro x hx
    simp only [put_le, List.mem_cons] at hx
    rcases hx with rfl | hx
    · exact Nat.mod_lt _ (by decide)
    · exact ih _ x hx

theorem get_le_put_le (n v : Nat) : get_le (put_le n v) = v % 256 ^ n := by
  induction n generalizing v with
  | zero => simp [put_le, get_le, Nat.mod_one]
  | succ n ih =>
    simp only [put_le, get_le, ih]
    rw [Nat.pow_succ, Nat.mul_comm (256 ^ n) 256, Nat.mod_mul]

theorem get_put_u16 (v : Nat) (h : v < 2 ^ 16) : get_le (put_le 2 v) = v := by
  rw [get_le_put_le]
  exact Nat.mod_eq_of_lt (by norm_num at h ⊢; exact h)

theorem get_put_u32 (v : Nat) (h : v < 2 ^ 32) : get_le (put_le 4 v) = v := by
  rw [get_le_put_le]
  exact Nat.mod_eq_of_lt (by norm_num at h ⊢; exact h)

theorem put_le_get_le (l : List Nat) (h : ∀ x ∈ l, x < 256) :
    put_le l.length (get_le l) = l := by
  induction l with
  | nil => rfl
  | cons b bs ih =>
    have hb : b < 256 := h b (List.mem_cons_self _ _)
    have hbs : ∀ x ∈ bs, x < 256 := fun x hx => h x (List.mem_cons_of_mem _ hx)
    have h1 : (b + 256 * get_le bs) % 256 = b := by omega
    have h2 : (b + 256 * get_le bs) / 256 = get_le bs := by omega
    simp only [List.length_cons, put_le, get_le, h1, h2, ih hbs]

theorem get_le_lt (l : List Nat) (h : ∀ x ∈ l, x < 256) : get_le l < 256 ^ l.length := by
  induction l with
  | nil => simp [get_le]
  | cons b bs ih =>
    have hb : b < 256 := h b (List.mem_cons_self _ _)
    have hbs : ∀ x ∈ bs, x < 256 := fun x hx => h x (List.mem_cons_of_mem _ hx)
    have := ih hbs
    simp only [get_le, List.length_cons, Nat.pow_succ]
    omega

/-! ## Slices -/

theorem slice_length (b : List Nat) (off n : Nat) (h : off + n ≤ b.length) :
    (slice b off n).length = n := by
  simp only [slice, List.length_take, List.length_drop]
  omega

theorem slice_mem (b : List Nat) (off n : Nat) : ∀ x ∈ slice b off n, x ∈ b := by
  intro x hx
  exact List.mem_of_mem_drop (List.mem_of_mem_take hx)

theorem slice_all (b : List Nat) (n : Nat) (h : b.length = n) : slice b 0 n = b := by
  simp [slice, ← h]

theorem slice_append_skip (a rest : List Nat) (off n : Nat) (h : a.length ≤ off) :
    slice (a ++ rest) off n = slice rest (off - a.length) n := by
  unfold slice
  congr 1
  obtain ⟨d, rfl⟩ := Nat.exists_eq_add_of_le h
  rw [List.drop_append, Nat.add_sub_cancel_left]

theorem slice_append_here (a rest : List Nat) (n : Nat) (h : n = a.length) :
    slice (a ++ rest) 0 n = a := by
  subst h
  simp [slice]

theorem slice_append_slice (b : List Nat) (off n m k : Nat) (h : k = off + n) :
    slice b off n ++ slice b k m = slice b off (n + m) := by
  subst h
  unfold slice
  rw [← List.drop_drop, List.take_add]

theorem put_get_slice (b : List Nat) (off n : Nat) (hb : ∀ x ∈ b, x < 256)
    (h : off + n ≤ b.length) : put_le n (get_le (slice b off n)) = slice b off n := by
  have h1 := put_le_get_le (slice b off n) (fun x hx => hb x (slice_mem b off n x hx))
  rwa [slice_length b off n h] at h1

/-! ## Round trips of the packed record codec -/

theorem encode_shared_data_length (s : vb2_shared_data) :
    (encode_shared_data s).length = 76 := by
  simp [encode_shared_data, put_le_length]

theorem encode_gbb_header_length (h : vb2_gbb_header) (hw : h.wf) :
    (encode_gbb_header h).length = 128 := by
  obtain ⟨⟨hs, -⟩, -, -, -, -, -, -, -, -, -, -, -, -, ⟨hd, -⟩, ⟨hp, -⟩⟩ := hw
  simp only [VB2_GBB_SIGNATURE_SIZE] at hs
  simp [encode_gbb_header, put_le_length, hs, hd, hp]

theorem decode_encode_shared_data (s : vb2_shared_data) (hw : s.wf) :
    decode_shared_data (encode_shared_data s) = .ok s := by
  have hsz : packed_sizeof vb2_shared_data_members = 76 := by decide
  obtain ⟨h0, h1, h2, h3, h4, h5, h6, h7, h8, h9, h10, h11, h12, h13, h14, h15, h16, h17,
    h18⟩ := hw
  unfold decode_shared_data
  rw [if_neg (by rw [encode_shared_data_length, hsz]; decide)]
  simp only [encode_shared_data, List.append_assoc]
  simp only [slice_append_skip, slice_append_here, slice_all, put_le_length, Nat.le_refl,
    Nat.reduceLeDiff, Nat.reduceSub, Nat.sub_self]
  rw [get_put_u32 _ h0, get_put_u32 _ h1, get_put_u32 _ h2, get_put_u32 _ h3,
    get_put_u32 _ h4, get_put_u32 _ h5, get_put_u32 _ h6, get_put_u32 _ h7,
    get_put_u32 _ h8, get_put_u32 _ h9, get_put_u32 _ h10, get_put_u32 _ h11,
    get_put_u32 _ h12, get_put_u32 _ h13, get_put_u32 _ h14, get_put_u32 _ h15,
    get_put_u32 _ h16, get_put_u32 _ h17, get_put_u32 _ h18]

theorem decode_encode_gbb_header (h : vb2_gbb_header) (hw : h.wf) :
    decode_gbb_header (encode_gbb_header h) = .ok h := by
  have hsz : packed_sizeof vb2_gbb_header_members = 128 := by decide
  have hlen := encode_gbb_header_length h hw
  obtain ⟨⟨hs, -⟩, h1, h2, h3, h4, h5, h6, h7, h8, h9, h10, h11, h12, ⟨hd, -⟩, ⟨hp, -⟩⟩ := hw
  simp only [VB2_GBB_SIGNATURE_SIZE] at hs
  unfold decode_gbb_header
  rw [if_neg (by rw [hlen, hsz]; decide)]
  simp only [encode_gbb_header, List.append_assoc]
  simp only [slice_append_skip, slice_append_here, slice_all, put_le_length, hs, hd, hp,
    Nat.le_refl, Nat.reduceLeDiff, Nat.reduceSub, Nat.sub_self]
  rw [get_put_u16 _ h1, get_put_u16 _ h2, get_put_u32 _ h3, get_put_u32 _ h4,
    get_put_u32 _ h5, get_put_u32 _ h6, get_put_u32 _ h7, get_put_u32 _ h8,
    get_put_u32 _ h9, get_put_u32 _ h10, get_put_u32 _ h11, get_put_u32 _ h12]

theorem get_u16_slice_lt (b : List Nat) (off : Nat) (hb : ∀ x ∈ b, x < 256)
    (h : off + 2 ≤ b.length) : get_le (slice b off 2) < 2 ^ 16 := by
  have h1 := get_le_lt (slice b off 2) (fun x hx => hb x (slice_mem b off 2 x hx))
  rw [slice_length b off 2 h] at h1
  norm_num at h1 ⊢
  exact h1

theorem get_u32_slice_lt (b : List Nat) (off : Nat) (hb : ∀ x ∈ b, x < 256)
    (h : off + 4 ≤ b.length) : get_le (slice b off 4) < 2 ^ 32 := by
  have h1 := get_le_lt (slice b off 4) (fun x hx => hb x (slice_mem b off 4 x hx))
  rw [slice_length b off 4 h] at h1
  norm_num at h1 ⊢
  exact h1

theorem slice_is_bytes (b : List Nat) (off n : Nat) (hb : ∀ x ∈ b, x < 256)
    (h : off + n ≤ b.length) : is_bytes n (slice b off n) :=
  ⟨slice_length b off n h, fun x hx => hb x (slice_mem b off n x hx)⟩

theorem encode_decode_shared_data (b : List Nat) (hlen : b.length = 76)
    (hb : ∀ x ∈ b, x < 256) :
    ∃ s, decode_shared_data b = .ok s ∧ s.wf ∧ encode_shared_data s = b := by
  have hsz : packed_sizeof vb2_shared_data_members = 76 := by decide
  have e : ∀ off, off + 4 ≤ 76 → put_le 4 (get_le (slice b off 4)) = slice b off 4 :=
    fun off h => put_get_slice b off 4 hb (by omega)
  have w : ∀ off, off + 4 ≤ 76 → get_le (slice b off 4) < 2 ^ 32 :=
    fun off h => get_u32_slice_lt b off hb (by omega)
  unfold decode_shared_data
  rw [if_neg (by rw [hlen, hsz]; decide)]
  refine ⟨_, rfl, ?_, ?_⟩
  · exact ⟨w 0 (by decide), w 4 (by decide), w 8 (by decide), w 12 (by decide),
      w 16 (by decide), w 20 (by decide), w 24 (by decide), w 28 (by decide),
      w 32 (by decide), w 36 (by decide), w 40 (by decide), w 44 (by decide),
      w 48 (by decide), w 52 (by decide), w 56 (by decide), w 60 (by decide),
      w 64 (by decide), w 68 (by decide), w 72 (by decide)⟩
  · simp only [encode_shared_data]
    rw [e 0 (by decide), e 4 (by decide), e 8 (by decide), e 12 (by decide),
      e 16 (by decide), e 20 (by decide), e 24 (by decide), e 28 (by decide),
      e 32 (by decide), e 36 (by decide), e 40 (by decide), e 44 (by decide),
      e 48 (by decide), e 52 (by decide), e 56 (by decide), e 60 (by decide),
      e 64 (by decide), e 68 (by decide), e 72 (by decide)]
    simp (disch := decide) only [slice_append_slice, Nat.reduceAdd]
    exact slice_all b 76 hlen

theorem encode_decode_gbb_header (b : List Nat) (hlen : b.length = 128)
    (hb : ∀ x ∈ b, x < 256) :
    ∃ h, decode_gbb_header b = .ok h ∧ h.wf ∧ encode_gbb_header h = b := by
  have hsz : packed_sizeof vb2_gbb_header_members = 128 := by decide
  have e2 : ∀ off, off + 2 ≤ 128 → put_le 2 (get_le (slice b off 2)) = slice b off 2 :=
    fun off h => put_get_slice b off 2 hb (by omega)
  have e : ∀ off, off + 4 ≤ 128 → put_le 4 (get_le (slice b off 4)) = slice b off 4 :=
    fun off h => put_get_slice b off 4 hb (by omega)
  have w2 : ∀ off, off + 2 ≤ 128 → get_le (slice b off 2) < 2 ^ 16 :=
    fun off h => get_u16_slice_lt b off hb (by omega)
  have w : ∀ off, off + 4 ≤ 128 → get_le (slice b off 4) < 2 ^ 32 :=
    fun off h => get_u32_slice_lt b off hb (by omega)
  have a : ∀ off n, off + n ≤ 128 → is_bytes n (slice b off n) :=
    fun off n h => slice_is_bytes b off n hb (by omega)
  unfold decode_gbb_header
  rw [if_neg (by rw [hlen, hsz]; decide)]
  refine ⟨_, rfl, ?_, ?_⟩
  · exact ⟨a 0 4 (by decide), w2 4 (by decide), w2 6 (by decide), w 8 (by decide),
      w 12 (by decide), w 16 (by decide), w 20 (by decide), w 24 (by decide),
      w 28 (by decide), w 32 (by decide), w 36 (by decide), w 40 (by decide),
      w 44 (by decide), a 48 32 (by decide), a 80 48 (by decide)⟩
  · simp only [encode_gbb_header]
    rw [e2 4 (by decide), e2 6 (by decide), e 8 (by decide), e 12 (by decide),
      e 16 (by decide), e 20 (by decide), e 24 (by decide), e 28 (by decide),
      e 32 (by decide), e 36 (by decide), e 40 (by decide), e 44 (by decide)]
    simp (disch := decide) only [slice_append_slice, Nat.reduceAdd]
    exact slice_all b 128 hlen

/-- C5: for every shared-data record and every GBB header whose members hold
values of their C types (any `uint32_t`, `uint16_t` and byte values, 0 and
`2 ^ 32 - 1` included), decoding the little-endian, field-by-field,
padding-free encoding returns the original record; the encodings have exactly
the packed sizes of the two structures. -/
theorem codec_decode_encode (s : vb2_shared_data) (h : vb2_gbb_header)
    (hs : s.wf) (hh : h.wf) :
    decode_shared_data (encode_shared_data s) = .ok s
      ∧ decode_gbb_header (encode_gbb_header h) = .ok h
      ∧ (encode_shared_data s).length = packed_sizeof vb2_shared_data_members
      ∧ (encode_gbb_header h).length = packed_sizeof vb2_gbb_header_members := by
  refine ⟨decode_encode_shared_data s hs, decode_encode_gbb_header h hh, ?_, ?_⟩
  · rw [encode_shared_data_length]; decide
  · rw [encode_gbb_header_length h hh]; decide

/-- Witness of C5 at records whose members take the boundary values. -/
theorem codec_decode_encode_witness :
    (boundary_shared_data.wf ∧ boundary_gbb_header.wf)
      ∧ decode_shared_data (encode_shared_data boundary_shared_data) = .ok boundary_shared_data
      ∧ decode_gbb_header (encode_gbb_header boundary_gbb_header) = .ok boundary_gbb_header
      ∧ (encode_shared_data boundary_shared_data).length
          = packed_sizeof vb2_shared_data_members
      ∧ (encode_gbb_header boundary_gbb_header).length
          = packed_sizeof vb2_gbb_header_members :=
  ⟨⟨by decide, by decide⟩,
    codec_decode_encode boundary_shared_data boundary_gbb_header (by decide) (by decide)⟩

/-- C10: every byte of the fixed-size encodings belongs to exactly one
declared member, and decoding followed by encoding is the identity on byte
strings: every 128-byte string decodes to a (well-typed) `vb2_gbb_header`
whose encoding is the string itself, and every 76-byte string decodes to a
(well-typed) `vb2_shared_data` whose encoding is the string itself. -/
theorem codec_encode_decode (g d : List Nat)
    (hg : g.length = 128) (hgb : ∀ x ∈ g, x < 256)
    (hd : d.length = 76) (hdb : ∀ x ∈ d, x < 256) :
    (∀ i : Fin 128, packed_owners vb2_gbb_header_members i.val = 1)
      ∧ (∀ i : Fin 76, packed_owners vb2_shared_data_members i.val = 1)
      ∧ (∃ h, decode_gbb_header g = .ok h ∧ h.wf ∧ encode_gbb_header h = g)
      ∧ (∃ s, decode_shared_data d = .ok s ∧ s.wf ∧ encode_shared_data s = d) :=
  ⟨by decide, by decide, encode_decode_gbb_header g hg hgb, encode_decode_shared_data d hd hdb⟩

/-- Witness of C10 at the byte strings `0, 1, ..., 127` and `255, ..., 255`. -/
theorem codec_encode_decode_witness :
    ((List.range 128).length = 128 ∧ (∀ x ∈ List.range 128, x < 256)
        ∧ (List.replicate 76 255).length = 76 ∧ (∀ x ∈ List.replicate 76 255, x < 256))
      ∧ (∃ h, decode_gbb_header (List.range 128) = .ok h ∧ h.wf
          ∧ encode_gbb_header h = List.range 128)
      ∧ (∃ s, decode_shared_data (List.replicate 76 255) = .ok s ∧ s.wf
          ∧ encode_shared_data s = List.replicate 76 255) :=
  ⟨⟨List.length_range 128, fun x hx => Nat.lt_trans (List.mem_range.1 hx) (by decide),
      by decide, by decide⟩,
    (codec_encode_decode (List.range 128) (List.replicate 76 255)
      (List.length_range 128) (fun x hx => Nat.lt_trans (List.mem_range.1 hx) (by decide))
      (by decide) (by decide)).2.2⟩

/-! ## GBB header validation -/

theorem gbb_validate_encode (h : vb2_gbb_header) (hw : h.wf) (gbb_len : Nat) :
    gbb_validate (encode_gbb_header h) gbb_len = gbb_validate_header h gbb_len := by
  unfold gbb_validate
  rw [decode_encode_gbb_header h hw]
  rfl

theorem gbb_validate_header_bad_version (h : vb2_gbb_header) (gbb_len : Nat)
    (hsig : gbb_check_signature h = .ok ()) (hmaj : h.major_version ≠ VB2_GBB_MAJOR_VER) :
    gbb_validate_header h gbb_len = .error .UnsupportedVersion := by
  unfold gbb_validate_header
  rw [hsig]
  simp [gbb_check_version, hmaj, bind, Except.bind]

theorem gbb_validate_header_ok (h : vb2_gbb_header) (gbb_len : Nat)
    (hsig : gbb_check_signature h = .ok ())
    (hmaj : h.major_version = VB2_GBB_MAJOR_VER)
    (hsz : h.header_size = EXPECTED_VB2_GBB_HEADER_SIZE)
    (hlen : gbb_len < 2 ^ 32)
    (h1 : h.hwid_offset + h.hwid_size ≤ gbb_len)
    (h2 : h.rootkey_offset + h.rootkey_size ≤ gbb_len)
    (h3 : h.bmpfv_offset + h.bmpfv_size ≤ gbb_len)
    (h4 : h.recovery_key_offset + h.recovery_key_size ≤ gbb_len) :
    gbb_validate_header h gbb_len = .ok h := by
  have r : ∀ name off size, off + size ≤ gbb_len →
      gbb_check_region name off size gbb_len = .ok () := by
    intro name off size hle
    have hlt : off + size < 2 ^ 32 := Nat.lt_of_le_of_lt hle hlen
    unfold gbb_check_region
    rw [if_pos ⟨hlt, hle⟩]
  unfold gbb_validate_header
  rw [hsig, r _ _ _ h1, r _ _ _ h2, r _ _ _ h3, r _ _ _ h4]
  simp [gbb_check_version, gbb_check_size, hmaj, hsz, bind, Except.bind, pure, Except.pure]

/-- C6: the supported GBB major version is 1, the known minor version 2 and
the expected header size 128; a header with major/minor = 1/2 and
`header_size = 128` passes the version check and the size check, and the same
header with `major_version = 2` fails the version check with
`UnsupportedVersion`. For a well-typed header carrying the masked signature
the whole validator reports the same on the encoded buffer: the buffer with
`major_version = 2` is rejected with `UnsupportedVersion`, and the original
one is accepted with `minor_version = 2` when its four regions lie inside the
declared component. -/
theorem gbb_version_and_size_checks (h : vb2_gbb_header) (gbb_len : Nat)
    (hmaj : h.major_version = 1) (hmin : h.minor_version = 2) (hsz : h.header_size = 128) :
    VB2_GBB_MAJOR_VER = 1 ∧ VB2_GBB_MINOR_VER = 2 ∧ EXPECTED_VB2_GBB_HEADER_SIZE = 128
      ∧ gbb_check_version h = .ok ()
      ∧ gbb_check_size h = .ok ()
      ∧ gbb_check_version { h with major_version := 2 } = .error .UnsupportedVersion
      ∧ (h.wf → gbb_check_signature h = .ok () →
          gbb_validate (encode_gbb_header { h with major_version := 2 }) gbb_len
            = .error .UnsupportedVersion)
      ∧ (h.wf → gbb_check_signature h = .ok () → gbb_len < 2 ^ 32 →
          h.hwid_offset + h.hwid_size ≤ gbb_len →
          h.rootkey_offset + h.rootkey_size ≤ gbb_len →
          h.bmpfv_offset + h.bmpfv_size ≤ gbb_len →
          h.recovery_key_offset + h.recovery_key_size ≤ gbb_len →
          ∃ r, gbb_validate (encode_gbb_header h) gbb_len = .ok r
            ∧ r = h ∧ r.minor_version = VB2_GBB_MINOR_VER) := by
  refine ⟨rfl, rfl, rfl, ?_, ?_, ?_, ?_, ?_⟩
  · simp [gbb_check_version, hmaj, VB2_GBB_MAJOR_VER]
  · simp [gbb_check_size, hsz, EXPECTED_VB2_GBB_HEADER_SIZE]
  · simp [gbb_check_version, VB2_GBB_MAJOR_VER]
  · intro hw hsig
    have hw2 : vb2_gbb_header.wf { h with major_version := 2 } := by
      obtain ⟨a0, -, a2, a3⟩ := hw
      exact ⟨a0, show 2 < 2 ^ 16 by decide, a2, a3⟩
    rw [gbb_validate_encode _ hw2]
    exact gbb_validate_header_bad_version _ gbb_len hsig
      (show (2 : Nat) ≠ VB2_GBB_MAJOR_VER by decide)
  · intro hw hsig hlen h1 h2 h3 h4
    refine ⟨h, ?_, rfl, hmin⟩
    rw [gbb_validate_encode h hw]
    exact gbb_validate_header_ok h gbb_len hsig hmaj hsz hlen h1 h2 h3 h4

/-- Witness of C6 at the header of the spec's scenario inside a 4096-byte
component. -/
theorem gbb_version_and_size_checks_witness :
    (scenario_gbb_header.major_version = 1 ∧ scenario_gbb_header.minor_version = 2
        ∧ scenario_gbb_header.header_size = 128)
      ∧ gbb_check_version scenario_gbb_header = .ok ()
      ∧ gbb_check_size scenario_gbb_header = .ok ()
      ∧ gbb_check_version { scenario_gbb_header with major_version := 2 }
          = .error .UnsupportedVersion
      ∧ gbb_validate (encode_gbb_header { scenario_gbb_header with major_version := 2 }) 4096
          = .error .UnsupportedVersion
      ∧ ∃ r, gbb_validate (encode_gbb_header scenario_gbb_header) 4096 = .ok r
          ∧ r = scenario_gbb_header ∧ r.minor_version = VB2_GBB_MINOR_VER :=
  have t := gbb_version_and_size_checks scenario_gbb_header 4096 rfl rfl rfl
  ⟨⟨rfl, rfl, rfl⟩, t.2.2.2.1, t.2.2.2.2.1, t.2.2.2.2.2.1,
    t.2.2.2.2.2.2.1 (by decide) (by decide),
    t.2.2.2.2.2.2.2 (by decide) (by decide) (by decide) (by decide) (by decide)
      (by decide) (by decide)⟩

end Vboot
